import Mathlib

/-!
Verification development for the symptom-extraction / disease-prediction
pipeline of the tabitha-project repository. The Python sources embedded here
are `src/backend/test_model.py` (class `DiseasePredictorTester`),
`src/backend/app.py` (`extract_symptoms_from_description`,
`filter_medications_by_history`, the prediction path of `analyze_symptoms`),
`src/backend/pipeline_demo.py`, and `src/backend/symptom_synonyms.py`.

Free text is modelled as `List Char`. The two neural components (the spaCy
dependency parse used in `get_negated_spans`, and the spaCy document-embedding
cosine similarity used for the semantic fallback) are not algorithmic code of
the repository; they are modelled as explicit oracle parameters (`depNeg`,
`semSim`) that the embedded functions receive, exactly at the two points where
the source calls into the neural model. Everything else (regexes, string
preprocessing, the `difflib` ratio, feature-vector construction, `np.argsort`
top-3 selection, threshold filtering, the medication filter) is embedded
directly from the source code. (`DiseasePredictorTester.is_negated` and
`negation_patterns` exist in the source but are called by no extraction or
prediction path, so they are not embedded.)
-/

set_option maxRecDepth 16000

namespace Tabitha

/-! ### Character-level utilities: Python `str.lower`, `\w`, whitespace -/

/-- Python `str.lower()` on a single character (our inputs are ASCII). -/
def lowerCh (c : Char) : Char := c.toLower

/-- Membership in the regex class `\w` (word character): alphanumeric or
underscore. (`Char.isAlphanum` is ASCII; the synonym table and every input
relevant to the claims are ASCII, where this coincides with Python.) -/
def isWordCh (c : Char) : Bool := c.isAlphanum || c == '_'

def lowerList (l : List Char) : List Char := l.map lowerCh

/-- Python `str.split()`: maximal runs of non-whitespace characters.
`cur` accumulates the current word, reversed. -/
def splitWsAux : List Char → List Char → List (List Char)
  | [], cur => if cur.isEmpty then [] else [cur.reverse]
  | c :: rest, cur =>
    if c.isWhitespace then
      if cur.isEmpty then splitWsAux rest [] else cur.reverse :: splitWsAux rest []
    else splitWsAux rest (c :: cur)

def splitWs (l : List Char) : List (List Char) := splitWsAux l []

/-- Python `' '.join(ws)`. -/
def joinWords (ws : List (List Char)) : List Char :=
  match ws with
  | [] => []
  | [w] => w
  | w :: rest => w ++ ' ' :: joinWords rest

/-- `DiseasePredictorTester.preprocess_text`: lowercase, replace every
character outside `[\w\s-]` by a space (`re.sub(r'[^\w\s\-]', ' ', text)`),
collapse whitespace (`' '.join(text.split())`). -/
def subNonWord (c : Char) : Char :=
  if isWordCh c || c.isWhitespace || c == '-' then c else ' '

def preprocess_text (l : List Char) : List Char :=
  joinWords (splitWs ((l.map lowerCh).map subNonWord))

/-- Python substring test `pat in l`. -/
def containsSeq (pat : List Char) : List Char → Bool
  | [] => pat.isEmpty
  | c :: rest => pat.isPrefixOf (c :: rest) || containsSeq pat rest

/-- Python `str.strip()`: drop whitespace from both ends. -/
def stripWs (l : List Char) : List Char :=
  ((l.dropWhile Char.isWhitespace).reverse.dropWhile Char.isWhitespace).reverse

/-- `symptom_synonyms` from `src/backend/symptom_synonyms.py`: canonical
symptom name to its surface-form synonym phrases. The Python values are
set literals; they are modelled as lists in the written order (the loops
over them in the source are existence checks, so iteration order never
matters). -/
def symptom_synonyms : List (String × List String) := [
  ("fever", ["fever", "high temperature", "pyrexia", "hot", "burning up", "temperature", "febrile", "temp", "feaver", "running a fever", "feverish"]),
  ("cough", ["cough", "coughing", "dry cough", "wet cough", "hacking cough", "couph", "koff", "barking cough", "persistent cough", "tickle in throat"]),
  ("fatigue", ["fatigue", "tiredness", "exhaustion", "lethargy", "weakness", "worn out", "drained", "sleepy", "fatige", "fatiguee", "no energy", "sluggish", "wiped out", "burned out"]),
  ("headache", ["headache", "head pain", "migraine", "head ache", "head hurts", "head hurting", "headach", "head ake", "pressure in head", "pounding head", "splitting headache"]),
  ("sore throat", ["sore throat", "throat pain", "throat soreness", "pharyngitis", "scratchy throat", "raw throat", "throat hurts", "sorethroat", "pain swallowing", "difficulty swallowing", "throat irritation"]),
  ("body ache", ["body ache", "muscle pain", "body pain", "myalgia", "aches", "aching", "muscle ache", "muscle soreness", "body hurts", "body aching", "all over pain", "generalized pain"]),
  ("chills", ["chills", "shivering", "cold chills", "rigors", "goosebumps", "shivers", "chill", "cold sweats", "shaky", "trembling"]),
  ("nausea", ["nausea", "queasiness", "sick feeling", "upset stomach", "nauseous", "nauseaous", "want to vomit", "feeling sick", "stomach turning"]),
  ("vomiting", ["vomiting", "throwing up", "puking", "emesis", "vomit", "barfing", "barf", "retching", "spitting up", "heaving"]),
  ("diarrhea", ["diarrhea", "loose stools", "watery stools", "bowel movement", "runs", "diarhea", "diarrhoea", "diarreah", "frequent stools", "liquid stool", "bowel urgency"]),
  ("shortness of breath", ["shortness of breath", "breathing difficulty", "dyspnea", "breathlessness", "can\x27t breathe", "hard to breathe", "out of breath", "short of breath", "winded", "gasping", "labored breathing"]),
  ("chest pain", ["chest pain", "chest discomfort", "chest tightness", "pain in chest", "tight chest", "chest hurts", "pressure in chest", "squeezing chest", "chest burning"]),
  ("loss of taste", ["loss of taste", "taste loss", "ageusia", "can\x27t taste", "no taste", "lost taste", "food tastes bland", "taste gone"]),
  ("loss of smell", ["loss of smell", "smell loss", "anosmia", "can\x27t smell", "no smell", "lost smell", "smell gone", "can\x27t detect odors"]),
  ("congestion", ["congestion", "nasal congestion", "stuffy nose", "blocked nose", "congested", "nose blocked", "nose stuffed", "sinus congestion", "clogged nose"]),
  ("runny nose", ["runny nose", "rhinorrhea", "nasal discharge", "nose running", "runny", "drippy nose", "nose drip", "leaky nose"]),
  ("sneezing", ["sneezing", "sneezes", "sneeze", "sneezing fits", "achoo", "can\x27t stop sneezing"]),
  ("red eyes", ["red eyes", "bloodshot eyes", "conjunctivitis", "pink eye", "eye redness", "red eye", "irritated eyes", "watery eyes"]),
  ("rash", ["rash", "skin rash", "eruption", "hives", "skin spots", "skin bumps", "rashes", "itchy skin", "red spots", "welts"]),
  ("joint pain", ["joint pain", "arthralgia", "joint ache", "pain in joints", "aching joints", "joint hurts", "joint hurting", "stiff joints", "swollen joints"]),
  ("appetite loss", ["loss of appetite", "no appetite", "appetite loss", "not hungry", "can\x27t eat", "don\x27t want to eat", "skipping meals", "eating less"]),
  ("bloating", ["bloating", "bloated", "swollen belly", "swollen stomach", "abdominal swelling", "gassy", "distended abdomen"]),
  ("abdominal pain", ["abdominal pain", "stomach pain", "belly pain", "pain in abdomen", "tummy ache", "stomach ache", "cramps", "cramping", "gut pain"]),
  ("burning urination", ["burning urination", "burning when urinating", "painful urination", "dysuria", "pee burns", "burns to pee", "pain peeing", "stinging pee"]),
  ("constipation", ["constipation", "hard stools", "can\x27t poop", "difficulty pooping", "no bowel movement", "infrequent stools", "straining"]),
  ("weight loss", ["weight loss", "losing weight", "lost weight", "unintentional weight loss", "clothes loose", "dropping pounds"]),
  ("night sweats", ["night sweats", "sweating at night", "sweat at night", "nighttime sweating", "wake up sweaty"]),
  ("swollen glands", ["swollen glands", "swollen lymph nodes", "lumps in neck", "swollen neck", "gland swelling", "enlarged glands"]),
  ("dizziness", ["dizziness", "dizzy", "lightheaded", "vertigo", "faint", "woozy", "off balance", "spinning"]),
  ("palpitations", ["palpitations", "heart racing", "heart pounding", "skipped beats", "fluttering heart", "irregular heartbeat"]),
  ("swelling", ["swelling", "swollen", "edema", "puffy", "fluid retention", "swollen ankles", "swollen feet"]),
  ("bruising", ["bruising", "bruises", "easy bruising", "purple marks", "black and blue", "hematoma"]),
  ("itching", ["itching", "itchy", "pruritus", "scratchy", "skin itching", "need to scratch"]),
  ("bleeding", ["bleeding", "bleed", "blood loss", "hemorrhage", "bloody", "bleeding out"]),
  ("tingling", ["tingling", "pins and needles", "numbness", "prickling", "tingly", "asleep limb"]),
  ("blurred vision", ["blurred vision", "blurry vision", "vision loss", "can\x27t see clearly", "fuzzy vision", "double vision"]),
  ("ear pain", ["ear pain", "earache", "pain in ear", "ear hurts", "ear infection"]),
  ("hearing loss", ["hearing loss", "can\x27t hear", "deafness", "hard of hearing", "lost hearing"]),
  ("back pain", ["back pain", "pain in back", "backache", "sore back", "stiff back", "lower back pain"]),
  ("frequent urination", ["frequent urination", "peeing a lot", "urinating often", "polyuria", "going to bathroom often"]),
  ("incontinence", ["incontinence", "leaking urine", "can\x27t hold urine", "urine leakage", "wetting"]),
  ("hot flashes", ["hot flashes", "hot flushes", "sudden warmth", "flushing", "feeling hot suddenly"]),
  ("cold intolerance", ["cold intolerance", "sensitive to cold", "can\x27t stand cold", "chilled easily"]),
  ("sensitivity to light", ["sensitivity to light", "photophobia", "light hurts eyes", "can\x27t stand bright light"]),
  ("anxiety", ["anxiety", "nervous", "worried", "panic", "anxious", "on edge", "uneasy"]),
  ("depression", ["depression", "depressed", "sad", "down", "hopeless", "blue", "low mood"]),
  ("memory loss", ["memory loss", "forgetful", "can\x27t remember", "amnesia", "lost memory"]),
  ("confusion", ["confusion", "confused", "disoriented", "can\x27t think clearly", "mixed up"]),
  ("hallucinations", ["hallucinations", "seeing things", "hearing voices", "delusions", "false beliefs"]),
  ("seizures", ["seizures", "fits", "convulsions", "epilepsy", "shaking spells"]),
  ("fainting", ["fainting", "passed out", "blackout", "lost consciousness", "syncope"]),
  ("difficulty swallowing", ["difficulty swallowing", "dysphagia", "trouble swallowing", "can\x27t swallow"]),
  ("hoarseness", ["hoarseness", "hoarse voice", "raspy voice", "lost voice", "voice change"]),
  ("mouth sores", ["mouth sores", "canker sores", "ulcers in mouth", "mouth ulcers", "sore in mouth"]),
  ("bad breath", ["bad breath", "halitosis", "smelly breath", "breath smells"]),
  ("dry mouth", ["dry mouth", "xerostomia", "mouth feels dry", "cotton mouth"]),
  ("excessive thirst", ["excessive thirst", "very thirsty", "polydipsia", "can\x27t get enough to drink"]),
  ("excessive hunger", ["excessive hunger", "very hungry", "polyphagia", "can\x27t stop eating"]),
  ("sweating", ["sweating", "sweaty", "perspiring", "clammy", "sweat a lot", "profuse sweating"]),
  ("enlarged liver", ["enlarged liver", "hepatomegaly", "big liver", "liver swelling"]),
  ("enlarged spleen", ["enlarged spleen", "splenomegaly", "big spleen", "spleen swelling"]),
  ("jaundice", ["jaundice", "yellow skin", "yellow eyes", "icterus"]),
  ("dark urine", ["dark urine", "tea colored urine", "brown urine", "cola colored urine"]),
  ("pale stools", ["pale stools", "clay colored stools", "light stools", "white stools"]),
  ("hair loss", ["hair loss", "losing hair", "balding", "alopecia", "thinning hair"]),
  ("swollen legs", ["swollen legs", "leg swelling", "puffy legs", "edema in legs"]),
  ("swollen feet", ["swollen feet", "foot swelling", "puffy feet", "edema in feet"]),
  ("swollen hands", ["swollen hands", "hand swelling", "puffy hands", "edema in hands"]),
  ("swollen face", ["swollen face", "face swelling", "puffy face", "edema in face"]),
  ("swollen abdomen", ["swollen abdomen", "abdominal swelling", "ascites", "big belly"])
]

/-! ### `get_negated_spans`: the regex list-negation part

`re.finditer(r'no ([\w\s,]+?)(?:\.|,|;|$)', text.lower())`: at each occurrence
of `"no "`, lazily capture characters of the class `[\w\s,]` up to a
terminator `.`/`,`/`;`/end-of-string. `+?` forces the first character to be
consumed from the class (so a leading comma is captured, not treated as a
terminator); afterwards the lazy engine tries the terminator before each
further extension, so the capture stops at the first `.`/`,`/`;` or at the
end. If a character outside both sets is reached, the match attempt fails
and scanning resumes one character later, as the `re` module does. -/

def captureNoItem : List Char → List Char → Option (List Char × List Char)
  | [], acc => if acc.isEmpty then none else some (acc.reverse, [])
  | c :: rest, acc =>
    if acc.isEmpty then
      if isWordCh c || c.isWhitespace || c == ',' then
        captureNoItem rest (c :: acc)
      else none
    else
      if c == '.' || c == ',' || c == ';' then some (acc.reverse, rest)
      else if isWordCh c || c.isWhitespace then captureNoItem rest (c :: acc)
      else none

/-- All matches of the list-negation regex: the captured item of each
(non-overlapping) match, scanning left to right. Written with a fuel
parameter so that the definition is structurally recursive (and hence
evaluates inside the kernel); `fuel = l.length` always suffices because
every step strictly shrinks the text being scanned. -/
def scanNoFuel : Nat → List Char → List (List Char)
  | 0, _ => []
  | fuel + 1, l =>
    match l with
    | 'n' :: 'o' :: ' ' :: rest =>
      match captureNoItem rest [] with
      | some (item, rest') => item :: scanNoFuel fuel rest'
      | none => scanNoFuel fuel ('o' :: ' ' :: rest)
    | _ :: rest => scanNoFuel fuel rest
    | [] => []

def scanNo (l : List Char) : List (List Char) := scanNoFuel l.length l

/-- `re.split(r'\bor\b|\band\b|,', item)`: length of a delimiter match at the
head of the list (`0` when none matches there). The word boundary `\b` holds
when the neighbouring character (previous for the left edge, following for the
right edge) is absent or not a word character. -/
def prevIsWord : Option Char → Bool
  | some c => isWordCh c
  | none => false

def headNonWord : List Char → Bool
  | [] => true
  | c :: _ => !isWordCh c

def negDelimLen (prev : Option Char) (l : List Char) : Nat :=
  match l with
  | ',' :: _ => 1
  | 'o' :: 'r' :: rest => if !prevIsWord prev && headNonWord rest then 2 else 0
  | 'a' :: 'n' :: 'd' :: rest => if !prevIsWord prev && headNonWord rest then 3 else 0
  | _ => 0

/-- Splitting one captured item on `\bor\b`, `\band\b` and `,` (the comma case
never fires on regex-captured items, which contain no commas, but is kept for
faithfulness). `prev` is the character just before `l` in the item; `cur`
accumulates the current piece, reversed. Fuel-structured as in `scanNoFuel`;
`fuel = l.length` suffices since every step consumes at least one character. -/
def splitNegItemFuel : Nat → Option Char → List Char → List Char →
    List (List Char)
  | 0, _, cur, _ => [cur.reverse]
  | fuel + 1, prev, cur, l =>
    match l with
    | [] => [cur.reverse]
    | c :: rest =>
      let k := negDelimLen prev (c :: rest)
      if k = 0 then splitNegItemFuel fuel (some c) (c :: cur) rest
      else cur.reverse ::
        splitNegItemFuel fuel (some (((c :: rest).take k).getLastD c)) []
          ((c :: rest).drop k)

def splitNegItem (prev : Option Char) (cur : List Char) (l : List Char) :
    List (List Char) :=
  splitNegItemFuel l.length prev cur l

/-- The set of phrases the list-negation regex judges negated:
split every captured item, strip whitespace, keep the non-empty results
(`item = item.strip(); if item: negated.add(item)`). -/
def regexNegSpans (text : List Char) : List (List Char) :=
  ((scanNo (lowerList text)).flatMap
    (fun item => (splitNegItem none [] item).map stripWs)).filter
    (fun it => !it.isEmpty)

/-- `DiseasePredictorTester.get_negated_spans`. The dependency-parse part
(spaCy `token.dep_ == 'neg'`, subtree spans, lemma collection) is a neural
component and is modelled by the oracle `depNeg`; its outputs are lowercased
as in the source (`t.lemma_.lower()`, `span.text.lower()`). The regex part is
embedded exactly. The source returns a Python set; the list models it, and
every consumer is an existence check, so duplicates and order are irrelevant. -/
def get_negated_spans (depNeg : String → List String) (text : String) :
    List (List Char) :=
  (depNeg text).map (fun s => lowerList s.toList) ++ regexNegSpans text.toList

/-! ### `difflib` fuzzy matching (`fuzzy_match` with cutoff 0.85) -/

/-- Length of the common prefix of two character lists. -/
def commonPrefixLen : List Char → List Char → Nat
  | a :: as, b :: bs => if a == b then commonPrefixLen as bs + 1 else 0
  | _, _ => 0

/-- `difflib.SequenceMatcher.find_longest_match`: the longest block of
consecutive characters common to `a` and `b` (no junk arises for our short
strings), as `(i, j, size)`. Ties are broken towards the block found first by
difflib, i.e. the smallest `i`, then the smallest `j`; the candidate scan below
enumerates positions in that order and only replaces the current best on a
strictly larger size. -/
def longestMatch (a b : List Char) : Nat × Nat × Nat :=
  ((List.range a.length).flatMap (fun i =>
      (List.range b.length).map (fun j =>
        (i, j, commonPrefixLen (a.drop i) (b.drop j))))).foldl
    (fun best c => if best.2.2 < c.2.2 then c else best) (0, 0, 0)

/-- `difflib.SequenceMatcher.get_matching_blocks` total matched size `M`:
recursively split around the longest matching block. Fuel-structured;
`fuel = a.length + b.length` suffices because both recursive calls act on
strictly shorter list pairs. -/
def matchTotalFuel : Nat → List Char → List Char → Nat
  | 0, _, _ => 0
  | fuel + 1, a, b =>
    let t := longestMatch a b
    if t.2.2 = 0 then 0
    else
      matchTotalFuel fuel (a.take t.1) (b.take t.2.1) + t.2.2 +
        matchTotalFuel fuel (a.drop (t.1 + t.2.2)) (b.drop (t.2.1 + t.2.2))

def matchTotal (a b : List Char) : Nat := matchTotalFuel (a.length + b.length) a b

/-- `DiseasePredictorTester.fuzzy_match(word, [syn], cutoff=0.85)` returning a
match: `difflib.get_close_matches` keeps `syn` when the `SequenceMatcher`
ratio `2*M / (len(syn)+len(word))` (with `a = syn`, `b = word`) reaches the
cutoff, i.e. `40*M ≥ 17*(len(syn)+len(word))`. (The quick-ratio pre-filters
are upper bounds of the ratio and cannot change the outcome; float rounding
exactly at the cutoff is not modelled.) -/
def fuzzy_match (word syn : List Char) : Bool :=
  17 * (syn.length + word.length) ≤ 40 * matchTotal syn word

/-! ### `DiseasePredictorTester.extract_symptoms` -/

/-- The negation short-circuit of `extract_symptoms`: some synonym of the
symptom overlaps some negated phrase — as a substring in either direction
(`syn in n or n in syn`) or by sharing at least one whitespace token
(`len(syn_words & n_words) > 0`). -/
def synOverlapsNeg (syn n : List Char) : Bool :=
  containsSeq syn n || containsSeq n syn ||
    (splitWs syn).any (fun w => (splitWs n).any (fun v => v == w))

def skipNegated (synonyms : List String) (negated : List (List Char)) : Bool :=
  synonyms.any (fun syn => negated.any (fun n => synOverlapsNeg syn.toList n))

/-- A synonym matches the description: exact substring of the cleaned text
(`syn in description_clean`), or fuzzy match of some description word against
the synonym. -/
def synMatches (syn : List Char) (clean : List Char) (ws : List (List Char)) :
    Bool :=
  containsSeq syn clean || ws.any (fun w => fuzzy_match w syn)

/-- The per-symptom step of the main loop of `extract_symptoms`: skip the
symptom entirely when negated; otherwise add it on an exact or fuzzy synonym
match; otherwise add it when the semantic similarity oracle exceeds 0.6. -/
def extractStep (negated : List (List Char)) (clean : List Char)
    (ws : List (List Char)) (semFn : String → ℚ) (acc : List String)
    (entry : String × List String) : List String :=
  if skipNegated entry.2 negated then acc
  else if entry.2.any (fun syn => synMatches syn.toList clean ws) then
    acc.insert entry.1
  else if mkRat 3 5 < semFn entry.1 then acc.insert entry.1
  else acc

/-- `compound_symptoms` from `extract_symptoms`. -/
def compound_symptoms : List ((String × String) × String) :=
  [(("sharp", "pain"), "abdominal pain"),
   (("burning", "urination"), "burning urination"),
   (("decreased", "appetite"), "appetite loss"),
   (("unusual", "tiredness"), "fatigue")]

/-- The compound-symptom heuristic fires: both words occur as description
words, and neither word occurs as a substring of any negated phrase. -/
def compoundFires (negated : List (List Char)) (ws : List (List Char))
    (entry : (String × String) × String) : Bool :=
  (ws.any (fun w => w == entry.1.1.toList) &&
    ws.any (fun w => w == entry.1.2.toList)) &&
  !(negated.any (fun n =>
    containsSeq entry.1.1.toList n || containsSeq entry.1.2.toList n))

def compoundStep (negated : List (List Char)) (ws : List (List Char))
    (acc : List String) (entry : (String × String) × String) : List String :=
  if compoundFires negated ws entry then acc.insert entry.2 else acc

/-- `DiseasePredictorTester.extract_symptoms`. `depNeg` is the
dependency-parse negation oracle (see `get_negated_spans`); `sem` is the
embedding-cosine-similarity oracle, applied to the raw description and the
canonical symptom name (the source computes both embeddings
deterministically from these). The source accumulates a Python `set`;
a duplicate-free list models it (`List.insert` adds an element only when
absent), and every consumer treats it as a set. -/
def extract_symptoms (depNeg : String → List String)
    (sem : String → String → ℚ) (description : String) : List String :=
  let clean := preprocess_text description.toList
  let ws := splitWs clean
  let negated := get_negated_spans depNeg description
  let base := symptom_synonyms.foldl (extractStep negated clean ws (sem description)) []
  compound_symptoms.foldl (compoundStep negated ws) base

/-! ### `DiseasePredictorTester.predict_from_text` -/

/-- The feature-vector construction of `predict_from_text`:
`{feature: 1 if feature in detected_symptoms else 0 for feature in self.feature_names}`,
whose values in `feature_names` order form the row passed to
`model.predict_proba`. -/
def feature_vector (feature_names detected : List String) : List Nat :=
  feature_names.map (fun f => if f ∈ detected then 1 else 0)

/-- Comparison used to model `np.argsort(probabilities)` on `(index, value)`
pairs: ascending by value. `np.argsort`'s tie order among equal values is
unspecified (quicksort); a stable insertion sort of the index-value pairs is
one faithful enumeration. -/
def probLe (a b : Nat × ℚ) : Prop := a.2 ≤ b.2

instance : DecidableRel probLe := fun a b => inferInstanceAs (Decidable (a.2 ≤ b.2))

instance : IsTotal (Nat × ℚ) probLe := ⟨fun a b => le_total a.2 b.2⟩

instance : IsTrans (Nat × ℚ) probLe := ⟨fun _ _ _ h1 h2 => le_trans h1 h2⟩

/-- `top_indices = np.argsort(probabilities)[-3:][::-1]` followed by
`[(label_names[idx], probabilities[idx]) for idx in top_indices]`: the last
three positions of the ascending argsort, reversed — i.e. the first three
positions of the descending order — paired with their labels. -/
def top_predictions (label_names : List String) (probs : List ℚ) :
    List (String × ℚ) :=
  (((List.insertionSort probLe probs.enum).reverse.take 3).map
    (fun p => (label_names.getD p.1 "", p.2)))

/-- Errors of the embedded pipeline: `ValueError("Model not loaded...")` from
`predict_from_text`, and the 400-response `'No symptoms detected in the
description'` from `analyze_symptoms`. -/
inductive PredictionError where
  | modelNotLoaded : PredictionError
  | noSymptomsDetected : PredictionError
deriving DecidableEq

/-- `DiseasePredictorTester` state after `__init__` (and possibly
`load_model`): `model` is the (optional) loaded classifier, modelled as the
`predict_proba` row function from the feature vector to per-label
probabilities; `feature_names` and `label_names` come from the model bundle;
`depNeg` and `semSim` are the neural oracles of `extract_symptoms`. -/
structure DiseasePredictorTester where
  model : Option (List Nat → List ℚ)
  feature_names : List String
  label_names : List String
  depNeg : String → List String
  semSim : String → String → ℚ

/-- `DiseasePredictorTester.predict_from_text`: fail when the model is unset;
otherwise extract symptoms, build the feature vector, call `predict_proba`,
and return the detected symptoms with the top-3 (label, probability) pairs.
(The source performs no empty-symptom check and no confidence filtering
here.) -/
def predict_from_text (t : DiseasePredictorTester) (description : String) :
    Except PredictionError (List String × List (String × ℚ)) :=
  match t.model with
  | none => .error .modelNotLoaded
  | some clf =>
    let detected_symptoms := extract_symptoms t.depNeg t.semSim description
    let X := feature_vector t.feature_names detected_symptoms
    let probabilities := clf X
    .ok (detected_symptoms, top_predictions t.label_names probabilities)

/-! ### `app.py`: web extractor, confidence filter, medication filter -/

/-- `MIN_DISEASE_CONFIDENCE = 0.1`. -/
def MIN_DISEASE_CONFIDENCE : ℚ := mkRat 1 10

/-- `MAX_SYMPTOMS = 10`. -/
def MAX_SYMPTOMS : Nat := 10

/-- `TOP_N_DISEASES = 3`. -/
def TOP_N_DISEASES : Nat := 3

/-- Word boundary `\b` between two optional neighbouring characters: exactly
one side is a word character (an absent neighbour counts as non-word). -/
def boundaryB (l r : Option Char) : Bool :=
  (match l with | some c => isWordCh c | none => false) !=
    (match r with | some c => isWordCh c | none => false)

/-- `re.search(r'\b' + re.escape(syn) + r'\b', text)` matching at the current
position: `pat` occurs here, with a word boundary against the previous
character and against the character following the occurrence. -/
def wwAt (pat : List Char) (prev : Option Char) (text : List Char) : Bool :=
  pat.isPrefixOf text && boundaryB prev pat.head? &&
    boundaryB pat.getLast? (text.drop pat.length).head?

def wholeWordSearch (pat : List Char) : Option Char → List Char → Bool
  | prev, [] => wwAt pat prev []
  | prev, c :: rest => wwAt pat prev (c :: rest) || wholeWordSearch pat (some c) rest

/-- Whole-word regex search used by `extract_symptoms_from_description`. -/
def wholeWord (pat text : List Char) : Bool := wholeWordSearch pat none text

/-- The detection loop of `app.py`'s `extract_symptoms_from_description`: a
canonical symptom is added exactly when one of its synonyms occurs as a whole
word in the lowercased description. The Python `set` accretion is modelled in
table order (each canonical name is added at most once). -/
def webDetect (text : List Char) : List String :=
  symptom_synonyms.foldl
    (fun acc e =>
      if e.2.any (fun syn => wholeWord (lowerList syn.toList) text) then
        acc ++ [e.1]
      else acc) []

/-- Length-descending comparison for
`sorted(detected, key=len, reverse=True)`. -/
def lenGeStr (a b : String) : Prop := b.length ≤ a.length

instance : DecidableRel lenGeStr := fun a b => Nat.decLe b.length a.length

instance : IsTotal String lenGeStr := ⟨fun a b => Nat.le_total b.length a.length⟩

instance : IsTrans String lenGeStr := ⟨fun _ _ _ h1 h2 => Nat.le_trans h2 h1⟩

/-- The cap of `extract_symptoms_from_description`: when more than
`MAX_SYMPTOMS` symptoms were detected, keep the first `MAX_SYMPTOMS` of the
length-descending order (`sorted(detected, key=len, reverse=True)[:MAX_SYMPTOMS]`;
Python's sort is stable, and the source sorts a set whose enumeration order is
unspecified, so a stable sort of the detection order is one faithful model). -/
def capSymptoms (detected : List String) : List String :=
  if MAX_SYMPTOMS < detected.length then
    (List.insertionSort lenGeStr detected).take MAX_SYMPTOMS
  else detected

/-- `app.py`'s `extract_symptoms_from_description` (word-boundary synonym
scan over the lowercased description, then the specificity cap). This is the
extractor the `/api/symptoms` endpoint uses for its empty check — it performs
no negation handling. -/
def extract_symptoms_from_description (description : String) : List String :=
  capSymptoms (webDetect (lowerList description.toList))

/-- The confidence filter of `analyze_symptoms` (also in `pipeline_demo.py`):
`[(d, conf) for d, conf in predictions if conf >= MIN_DISEASE_CONFIDENCE][:TOP_N_DISEASES]`. -/
def filter_top_predictions (preds : List (String × ℚ)) : List (String × ℚ) :=
  (preds.filter (fun p => MIN_DISEASE_CONFIDENCE ≤ p.2)).take TOP_N_DISEASES

/-- The prediction path of the `/api/symptoms` endpoint
(`app.py` `analyze_symptoms`, lines 538-564): extract with
`extract_symptoms_from_description`, reject an empty result with the 400
error `'No symptoms detected in the description'`, run
`predict_from_text(' '.join(symptoms))`, then threshold-filter and truncate
the predictions. Database writes and medication recommendation generation are
outside the modelled core. -/
def analyze_symptoms (t : DiseasePredictorTester) (description : String) :
    Except PredictionError (List String × List String × List (String × ℚ)) :=
  let symptoms := extract_symptoms_from_description description
  if symptoms.isEmpty then .error .noSymptomsDetected
  else
    match predict_from_text t (String.intercalate " " symptoms) with
    | .error e => .error e
    | .ok (detected, predictions) =>
      .ok (symptoms, detected, filter_top_predictions predictions)

/-! ### `filter_medications_by_history` (`app.py` and `pipeline_demo.py`) -/

structure Medication where
  name : String
  generic_name : String
  contraindications : List String
deriving DecidableEq

structure PatientHistory where
  allergies : List String
  medical_history : List String
deriving DecidableEq

def lowerStr (s : String) : String := String.mk (lowerList s.toList)

/-- Python substring test on strings. -/
def containsSub (sub s : String) : Bool := containsSeq sub.toList s.toList

/-- One medication is excluded: some (lowercased) allergy is a substring of
the lowercased name or generic name, or some lowercased contraindication is
among the lowercased recorded conditions. -/
def medExcluded (allergies conditions : List String) (med : Medication) : Bool :=
  allergies.any (fun a =>
    containsSub a (lowerStr med.name) || containsSub a (lowerStr med.generic_name)) ||
  (med.contraindications.map lowerStr).any (fun c => conditions.any (fun d => d == c))

/-- `filter_medications_by_history(meds, patient_history)`: with no history,
return the candidates unchanged; otherwise keep, in order, exactly the
medications not excluded by an allergy or contraindication hit. -/
def filter_medications_by_history (meds : List Medication)
    (patient_history : Option PatientHistory) : List Medication :=
  match patient_history with
  | none => meds
  | some h =>
    let allergies := h.allergies.map lowerStr
    let conditions := h.medical_history.map lowerStr
    meds.filter (fun med => !medExcluded allergies conditions med)

/-! ## Theorems

First, membership characterizations for the accumulation loops. -/

/-- The Boolean condition under which the main loop of `extract_symptoms`
adds the entry's canonical symptom: not skipped by negation, and matched
exactly/fuzzily or semantically. -/
def extractAdds (negated : List (List Char)) (clean : List Char)
    (ws : List (List Char)) (semFn : String → ℚ) (e : String × List String) :
    Bool :=
  !skipNegated e.2 negated &&
    (e.2.any (fun syn => synMatches syn.toList clean ws) ||
      decide (mkRat 3 5 < semFn e.1))

/-- The Boolean condition under which `extract_symptoms_from_description`
adds a canonical symptom: some synonym occurs as a whole word. -/
def webAdds (text : List Char) (e : String × List String) : Bool :=
  e.2.any (fun syn => wholeWord (lowerList syn.toList) text)

theorem mem_foldl_condInsert {β : Type} (q : β → Bool) (g : β → String) :
    ∀ (l : List β) (init : List String) (c : String),
      c ∈ l.foldl (fun acc e => if q e then acc.insert (g e) else acc) init ↔
        c ∈ init ∨ ∃ e, e ∈ l ∧ g e = c ∧ q e = true := by
  intro l
  induction l with
  | nil => simp
  | cons e rest ih =>
    intro init c
    rw [List.foldl_cons, ih]
    by_cases hq : q e = true
    · rw [if_pos hq, List.mem_insert_iff]
      constructor
      · rintro ((rfl | hc) | ⟨f, hf, hg, hqf⟩)
        · exact Or.inr ⟨e, List.mem_cons_self e rest, rfl, hq⟩
        · exact Or.inl hc
        · exact Or.inr ⟨f, List.mem_cons_of_mem e hf, hg, hqf⟩
      · rintro (hc | ⟨f, hf, hg, hqf⟩)
        · exact Or.inl (Or.inr hc)
        · rcases List.mem_cons.mp hf with rfl | hf
          · exact Or.inl (Or.inl hg.symm)
          · exact Or.inr ⟨f, hf, hg, hqf⟩
    · rw [if_neg hq]
      constructor
      · rintro (hc | ⟨f, hf, hg, hqf⟩)
        · exact Or.inl hc
        · exact Or.inr ⟨f, List.mem_cons_of_mem e hf, hg, hqf⟩
      · rintro (hc | ⟨f, hf, hg, hqf⟩)
        · exact Or.inl hc
        · rcases List.mem_cons.mp hf with rfl | hf
          · exact absurd hqf hq
          · exact Or.inr ⟨f, hf, hg, hqf⟩

theorem mem_foldl_condAppend {β : Type} (q : β → Bool) (g : β → String) :
    ∀ (l : List β) (init : List String) (c : String),
      c ∈ l.foldl (fun acc e => if q e then acc ++ [g e] else acc) init ↔
        c ∈ init ∨ ∃ e, e ∈ l ∧ g e = c ∧ q e = true := by
  intro l
  induction l with
  | nil => simp
  | cons e rest ih =>
    intro init c
    rw [List.foldl_cons, ih]
    by_cases hq : q e = true
    · rw [if_pos hq]
      constructor
      · rintro (hc | ⟨f, hf, hg, hqf⟩)
        · rcases List.mem_append.mp hc with hc | hc
          · exact Or.inl hc
          · rcases List.mem_singleton.mp hc with rfl
            exact Or.inr ⟨e, List.mem_cons_self e rest, rfl, hq⟩
        · exact Or.inr ⟨f, List.mem_cons_of_mem e hf, hg, hqf⟩
      · rintro (hc | ⟨f, hf, hg, hqf⟩)
        · exact Or.inl (List.mem_append.mpr (Or.inl hc))
        · rcases List.mem_cons.mp hf with rfl | hf
          · exact Or.inl (List.mem_append.mpr (Or.inr (List.mem_singleton.mpr hg.symm)))
          · exact Or.inr ⟨f, hf, hg, hqf⟩
    · rw [if_neg hq]
      constructor
      · rintro (hc | ⟨f, hf, hg, hqf⟩)
        · exact Or.inl hc
        · exact Or.inr ⟨f, List.mem_cons_of_mem e hf, hg, hqf⟩
      · rintro (hc | ⟨f, hf, hg, hqf⟩)
        · exact Or.inl hc
        · rcases List.mem_cons.mp hf with rfl | hf
          · exact absurd hqf hq
          · exact Or.inr ⟨f, hf, hg, hqf⟩

theorem extractStep_eq (negated : List (List Char)) (clean : List Char)
    (ws : List (List Char)) (semFn : String → ℚ) :
    extractStep negated clean ws semFn = fun acc e =>
      if extractAdds negated clean ws semFn e then acc.insert e.1 else acc := by
  funext acc e
  unfold extractStep extractAdds
  cases h1 : skipNegated e.2 negated <;>
    cases h2 : e.2.any (fun syn => synMatches syn.toList clean ws) <;>
      by_cases h3 : mkRat 3 5 < semFn e.1 <;>
        simp [h1, h2, h3, List.any_eq_true]

theorem compoundStep_eq (negated : List (List Char)) (ws : List (List Char)) :
    compoundStep negated ws = fun acc e =>
      if compoundFires negated ws e then acc.insert e.2 else acc := by
  funext acc e
  unfold compoundStep
  rfl

/-- Membership characterization of `extract_symptoms`: a canonical symptom is
in the result exactly when its table entry passes the negation short-circuit
and matches (exactly, fuzzily or semantically), or a compound heuristic with
this target fires. -/
theorem mem_extract_symptoms (depNeg : String → List String)
    (sem : String → String → ℚ) (d : String) (c : String) :
    c ∈ extract_symptoms depNeg sem d ↔
      (∃ e, e ∈ symptom_synonyms ∧ e.1 = c ∧
        extractAdds (get_negated_spans depNeg d) (preprocess_text d.toList)
          (splitWs (preprocess_text d.toList)) (sem d) e = true) ∨
      (∃ e, e ∈ compound_symptoms ∧ e.2 = c ∧
        compoundFires (get_negated_spans depNeg d)
          (splitWs (preprocess_text d.toList)) e = true) := by
  have hdef : extract_symptoms depNeg sem d =
      List.foldl (compoundStep (get_negated_spans depNeg d)
          (splitWs (preprocess_text d.toList)))
        (List.foldl (extractStep (get_negated_spans depNeg d)
            (preprocess_text d.toList) (splitWs (preprocess_text d.toList))
            (sem d)) [] symptom_synonyms)
        compound_symptoms := rfl
  rw [hdef, extractStep_eq, compoundStep_eq]
  rw [mem_foldl_condInsert (compoundFires (get_negated_spans depNeg d)
        (splitWs (preprocess_text d.toList))) (fun e => e.2),
      mem_foldl_condInsert (extractAdds (get_negated_spans depNeg d)
        (preprocess_text d.toList) (splitWs (preprocess_text d.toList))
        (sem d)) (fun e => e.1)]
  simp only [List.not_mem_nil, false_or]

/-- Membership characterization of the web extractor's detection loop. -/
theorem mem_webDetect (text : List Char) (c : String) :
    c ∈ webDetect text ↔
      ∃ e, e ∈ symptom_synonyms ∧ e.1 = c ∧ webAdds text e = true := by
  unfold webDetect
  have h : (fun (acc : List String) (e : String × List String) =>
      if e.2.any (fun syn => wholeWord (lowerList syn.toList) text) then
        acc ++ [e.1]
      else acc) = fun acc e => if webAdds text e then acc ++ [e.1] else acc := rfl
  rw [h, mem_foldl_condAppend (webAdds text) (fun e => e.1)]
  simp

theorem skipNegated_append_right (syns : List String) (n1 n2 : List (List Char))
    (h : skipNegated syns n2 = true) : skipNegated syns (n1 ++ n2) = true := by
  simp only [skipNegated, List.any_eq_true] at h ⊢
  obtain ⟨syn, hsyn, n, hn, ho⟩ := h
  exact ⟨syn, hsyn, n, List.mem_append.mpr (Or.inr hn), ho⟩

/-- A symptom is absent from the extraction result when every table entry
carrying it is skipped already by the regex-negation spans (the
dependency-parse oracle can only add further negations) and no compound
heuristic targets it. -/
theorem not_mem_extract_of_skip (depNeg : String → List String)
    (sem : String → String → ℚ) (d : String) (c : String)
    (htab : ∀ e ∈ symptom_synonyms, e.1 = c →
      skipNegated e.2 (regexNegSpans d.toList) = true)
    (hcomp : ∀ e ∈ compound_symptoms, e.2 ≠ c) :
    c ∉ extract_symptoms depNeg sem d := by
  intro h
  rcases (mem_extract_symptoms depNeg sem d c).mp h with
    ⟨e, he, hfst, hadd⟩ | ⟨e, he, hsnd, _⟩
  · have hskip : skipNegated e.2 (get_negated_spans depNeg d) = true := by
      unfold get_negated_spans
      exact skipNegated_append_right _ _ _ (htab e he hfst)
    unfold extractAdds at hadd
    rw [hskip] at hadd
    simp at hadd
  · exact hcomp e he hsnd

/-- A symptom is in the extraction result when the dependency parse reports
nothing, its entry is not skipped by the regex-negation spans, and one of its
synonyms matches the cleaned description. -/
theorem mem_extract_of_match (depNeg : String → List String)
    (sem : String → String → ℚ) (d : String) (c : String)
    (hdep : depNeg d = [])
    (hfind : ∃ e, e ∈ symptom_synonyms ∧ e.1 = c ∧
      skipNegated e.2 (regexNegSpans d.toList) = false ∧
      e.2.any (fun syn => synMatches syn.toList (preprocess_text d.toList)
        (splitWs (preprocess_text d.toList))) = true) :
    c ∈ extract_symptoms depNeg sem d := by
  obtain ⟨e, he, hfst, hskip, hany⟩ := hfind
  rw [mem_extract_symptoms]
  left
  refine ⟨e, he, hfst, ?_⟩
  have hng : get_negated_spans depNeg d = regexNegSpans d.toList := by
    unfold get_negated_spans
    rw [hdep]
    rfl
  unfold extractAdds
  rw [hng, hskip, hany]
  rfl

/-- C4: `extract("no fever or cough")` contains neither `"fever"` nor
`"cough"`, for every dependency-parse oracle and every semantic-similarity
oracle — the regex list-negation alone captures both items, and the negation
short-circuit (substring either way, or a shared token, against any negated
phrase) then skips both symptoms entirely. `extract("I have a fever")`
contains `"fever"` whenever the dependency parse reports no negation on that
sentence (which has no negation token). -/
theorem C4_negation_correctness :
    (∀ (depNeg : String → List String) (sem : String → String → ℚ),
      "fever" ∉ extract_symptoms depNeg sem "no fever or cough" ∧
      "cough" ∉ extract_symptoms depNeg sem "no fever or cough") ∧
    (∀ (depNeg : String → List String) (sem : String → String → ℚ),
      depNeg "I have a fever" = [] →
      "fever" ∈ extract_symptoms depNeg sem "I have a fever") := by
  constructor
  · intro depNeg sem
    constructor
    · exact not_mem_extract_of_skip depNeg sem _ _ (by decide) (by decide)
    · exact not_mem_extract_of_skip depNeg sem _ _ (by decide) (by decide)
  · intro depNeg sem hdep
    exact mem_extract_of_match depNeg sem _ _ hdep (by decide)

/-- Witness for C4 at concrete oracles: the trivial dependency-parse oracle
returns no negations, so `"fever"` is extracted from `"I have a fever"`. -/
theorem C4_negation_correctness_witness :
    "fever" ∈ extract_symptoms (fun _ => []) (fun _ _ => 0) "I have a fever" :=
  C4_negation_correctness.2 (fun _ => []) (fun _ _ => 0) rfl

/-- The adapter's top-3 list is sorted descending by probability. -/
theorem top_predictions_pairwise (labels : List String) (probs : List ℚ) :
    (top_predictions labels probs).Pairwise (fun a b => b.2 ≤ a.2) := by
  unfold top_predictions
  rw [List.pairwise_map]
  apply List.Pairwise.sublist (List.take_sublist 3 _)
  rw [List.pairwise_reverse]
  exact List.sorted_insertionSort probLe probs.enum

/-- C1: the filtered output of the prediction pipeline keeps only
predictions with probability at least `MIN_DISEASE_CONFIDENCE = 0.1`, has at
most 3 entries, is sorted descending by probability, and is a sublist of the
adapter's top-3 output (filtering never re-sorts); the adapter
(`predict_from_text` with a loaded model) returns exactly the top-3 pairs of
the classifier's probabilities next to the extracted symptoms; and on the
classifier output `[0.5, 0.3, 0.05, 0.15]` over four labels the filtered
result is exactly `[(label0, 0.5), (label1, 0.3), (label3, 0.15)]`. -/
theorem C1_threshold_topn :
    (∀ (labels : List String) (probs : List ℚ),
      (∀ p ∈ filter_top_predictions (top_predictions labels probs),
        MIN_DISEASE_CONFIDENCE ≤ p.2) ∧
      (filter_top_predictions (top_predictions labels probs)).length ≤ 3 ∧
      (filter_top_predictions (top_predictions labels probs)).Pairwise
        (fun a b => b.2 ≤ a.2) ∧
      (filter_top_predictions (top_predictions labels probs)).Sublist
        (top_predictions labels probs)) ∧
    (∀ (t : DiseasePredictorTester) (clf : List Nat → List ℚ) (d : String),
      t.model = some clf →
      predict_from_text t d = .ok (extract_symptoms t.depNeg t.semSim d,
        top_predictions t.label_names
          (clf (feature_vector t.feature_names
            (extract_symptoms t.depNeg t.semSim d))))) ∧
    filter_top_predictions (top_predictions ["label0", "label1", "label2", "label3"]
        [mkRat 1 2, mkRat 3 10, mkRat 1 20, mkRat 3 20]) =
      [("label0", mkRat 1 2), ("label1", mkRat 3 10), ("label3", mkRat 3 20)] := by
  refine ⟨?_, ?_, by decide⟩
  · intro labels probs
    refine ⟨?_, ?_, ?_, ?_⟩
    · intro p hp
      have hp' := List.take_subset TOP_N_DISEASES _ hp
      have := (List.mem_filter.mp hp').2
      exact of_decide_eq_true this
    · exact List.length_take_le TOP_N_DISEASES _
    · exact List.Pairwise.sublist
        ((List.take_sublist _ _).trans (List.filter_sublist _))
        (top_predictions_pairwise labels probs)
    · exact (List.take_sublist _ _).trans (List.filter_sublist _)
  · intro t clf d h
    unfold predict_from_text
    rw [h]

/-- Witness for C1's hypothesis-bearing parts at concrete inputs. -/
theorem C1_threshold_topn_witness :
    MIN_DISEASE_CONFIDENCE ≤ (("label0", mkRat 1 2) : String × ℚ).2 ∧
    predict_from_text
        ⟨some (fun v => v.map (fun x => mkRat x 2)), ["fever"], ["flu"],
          fun _ => [], fun _ _ => 0⟩ "fever" =
      .ok (extract_symptoms (fun _ => []) (fun _ _ => 0) "fever",
        top_predictions ["flu"]
          ((feature_vector ["fever"]
            (extract_symptoms (fun _ => []) (fun _ _ => 0) "fever")).map
              (fun x => mkRat x 2))) :=
  ⟨(C1_threshold_topn.1 ["label0"] [mkRat 1 2]).1 ("label0", mkRat 1 2) (by decide),
   C1_threshold_topn.2.1 _ (fun v => v.map (fun x => mkRat x 2)) "fever" rfl⟩

/-- C2: the feature vector has one entry per feature name, in
`feature_names` order, with value 1 exactly at the names contained in the
extracted symptom set; for `feature_names = ["fever", "cough"]` and the set
`{"fever"}` it is `[1, 0]`. -/
theorem C2_feature_vector_alignment :
    (∀ (names detected : List String),
      (feature_vector names detected).length = names.length ∧
      ∀ i : Nat, (feature_vector names detected)[i]? =
        names[i]?.map (fun f => if f ∈ detected then 1 else 0)) ∧
    feature_vector ["fever", "cough"] ["fever"] = [1, 0] := by
  constructor
  · intro names detected
    constructor
    · exact List.length_map names _
    · intro i
      exact List.getElem?_map _ names i
  · decide

/-- Counterexample to C3: for the empty description, `extract_symptoms`
returns the empty set, and `predict_from_text` (with a loaded model) does
not fail — it returns predictions computed from the all-zero feature vector
instead of raising a no-symptoms error. -/
theorem C3_empty_extraction_counterexample :
    extract_symptoms (fun _ => []) (fun _ _ => 0) "" = [] ∧
    predict_from_text
        ⟨some (fun _ => [mkRat 1 2, mkRat 3 10, mkRat 1 5]),
          ["fever", "cough"], ["flu", "cold", "covid"],
          fun _ => [], fun _ _ => 0⟩ "" =
      .ok ([], [("flu", mkRat 1 2), ("cold", mkRat 3 10), ("covid", mkRat 1 5)]) :=
  ⟨by decide, by rfl⟩

/-- C3 amended: the empty-extraction rejection lives in the
`analyze_symptoms` endpoint, not in `predict_from_text`: whenever the
endpoint's extractor (`extract_symptoms_from_description`) finds no
symptoms, `analyze_symptoms` answers the no-symptoms error (HTTP 400)
before ever invoking the predictor. -/
theorem C3_empty_extraction_amended :
    ∀ (t : DiseasePredictorTester) (d : String),
      extract_symptoms_from_description d = [] →
      analyze_symptoms t d = .error .noSymptomsDetected := by
  intro t d h
  simp only [analyze_symptoms, h]
  rfl

/-- Witness for C3's amended theorem at the empty description. -/
theorem C3_empty_extraction_amended_witness :
    analyze_symptoms
      ⟨some (fun _ => [mkRat 1 2, mkRat 3 10, mkRat 1 5]),
        ["fever", "cough"], ["flu", "cold", "covid"],
        fun _ => [], fun _ _ => 0⟩ "" = .error .noSymptomsDetected :=
  C3_empty_extraction_amended _ "" (by decide)

/-- C7: when the model is unset, `predict_from_text` fails with the
model-not-loaded error (`ValueError("Model not loaded. Call load_model()
first.")`), for every description and regardless of all other state — in
particular no classifier exists to be invoked. -/
theorem C7_model_not_loaded :
    ∀ (t : DiseasePredictorTester) (d : String), t.model = none →
      predict_from_text t d = .error .modelNotLoaded := by
  intro t d h
  unfold predict_from_text
  rw [h]

/-- Witness for C7 at a concrete unloaded predictor. -/
theorem C7_model_not_loaded_witness :
    predict_from_text ⟨none, [], [], fun _ => [], fun _ _ => 0⟩ "fever" =
      .error .modelNotLoaded :=
  C7_model_not_loaded _ "fever" rfl

/-- C9 (implicit): the web-API extractor performs no negation handling — a
canonical symptom is detected exactly when one of its synonyms occurs as a
whole word in the lowercased text; in particular `"no fever"` yields
`"fever"`. -/
theorem C9_web_extractor_no_negation :
    (∀ (d : String) (c : String),
      c ∈ webDetect (lowerList d.toList) ↔
        ∃ e, e ∈ symptom_synonyms ∧ e.1 = c ∧
          e.2.any (fun syn =>
            wholeWord (lowerList syn.toList) (lowerList d.toList)) = true) ∧
    "fever" ∈ extract_symptoms_from_description "no fever" := by
  constructor
  · intro d c
    exact mem_webDetect (lowerList d.toList) c
  · decide

/-- `""` is a substring of everything (Python `'' in s` is `True`). -/
theorem containsSeq_nil_left (l : List Char) : containsSeq [] l = true := by
  cases l <;> rfl

/-- C10 (implicit): a recorded empty-string allergy excludes every
medication, because the empty string is a substring of every lowercased
name. -/
theorem C10_empty_allergy_excludes_all :
    ∀ (meds : List Medication) (h : PatientHistory),
      "" ∈ h.allergies →
      filter_medications_by_history meds (some h) = [] := by
  intro meds h hmem
  unfold filter_medications_by_history
  rw [List.filter_eq_nil_iff]
  intro med hmed
  have hex : medExcluded (h.allergies.map lowerStr)
      (h.medical_history.map lowerStr) med = true := by
    unfold medExcluded
    rw [Bool.or_eq_true]
    left
    rw [List.any_eq_true]
    refine ⟨"", List.mem_map.mpr ⟨"", hmem, rfl⟩, ?_⟩
    rw [Bool.or_eq_true]
    left
    exact containsSeq_nil_left _
  simp [hex]

/-- Witness for C10 at a concrete medication list and history. -/
theorem C10_empty_allergy_excludes_all_witness :
    filter_medications_by_history [⟨"Aspirin", "aspirin", []⟩]
      (some ⟨[""], []⟩) = [] :=
  C10_empty_allergy_excludes_all _ _ (by decide)

/-- C8: with no history the candidates pass unchanged; with a history, a
medication is retained exactly when no lowercased recorded allergy is a
substring of its lowercased name or generic name and no lowercased
contraindication equals a lowercased recorded condition; the retained
medications keep their relative order (the result is a sublist); and
"Penicillin V" is excluded for the allergy "penicillin" while an unrelated
medication stays. -/
theorem C8_medication_history_filter :
    (∀ meds : List Medication, filter_medications_by_history meds none = meds) ∧
    (∀ (meds : List Medication) (h : PatientHistory) (m : Medication),
      m ∈ filter_medications_by_history meds (some h) ↔
        m ∈ meds ∧
        ¬ ((∃ a ∈ h.allergies.map lowerStr,
              containsSub a (lowerStr m.name) = true ∨
              containsSub a (lowerStr m.generic_name) = true) ∨
           (∃ cs ∈ m.contraindications.map lowerStr,
              cs ∈ h.medical_history.map lowerStr))) ∧
    (∀ (meds : List Medication) (h : PatientHistory),
      (filter_medications_by_history meds (some h)).Sublist meds) ∧
    filter_medications_by_history
        [⟨"Penicillin V", "penicillin v potassium", []⟩,
         ⟨"Ibuprofen", "ibuprofen", ["peptic ulcer"]⟩]
        (some ⟨["penicillin"], ["asthma"]⟩) =
      [⟨"Ibuprofen", "ibuprofen", ["peptic ulcer"]⟩] := by
  refine ⟨fun meds => rfl, ?_, ?_, by decide⟩
  · intro meds h m
    show m ∈ List.filter _ meds ↔ _
    rw [List.mem_filter]
    simp only [Bool.not_eq_true', Bool.not_eq_true]
    constructor
    · rintro ⟨hm, hex⟩
      refine ⟨hm, ?_⟩
      intro hcontra
      have htrue : medExcluded (h.allergies.map lowerStr)
          (h.medical_history.map lowerStr) m = true := by
        unfold medExcluded
        rw [Bool.or_eq_true]
        rcases hcontra with ⟨a, ha, hsub⟩ | ⟨cs, hcs, hmemc⟩
        · left
          rw [List.any_eq_true]
          exact ⟨a, ha, by rcases hsub with hs | hs <;> simp [hs]⟩
        · right
          rw [List.any_eq_true]
          refine ⟨cs, hcs, ?_⟩
          rw [List.any_eq_true]
          exact ⟨cs, hmemc, by simp⟩
      rw [hex] at htrue
      exact Bool.false_ne_true htrue
    · rintro ⟨hm, hnot⟩
      refine ⟨hm, ?_⟩
      by_contra hex
      rw [Bool.not_eq_false, medExcluded, Bool.or_eq_true] at hex
      apply hnot
      rcases hex with hall | hcond
      · rw [List.any_eq_true] at hall
        obtain ⟨a, ha, hor⟩ := hall
        rw [Bool.or_eq_true] at hor
        exact Or.inl ⟨a, ha, hor⟩
      · rw [List.any_eq_true] at hcond
        obtain ⟨cs, hcs, hany⟩ := hcond
        rw [List.any_eq_true] at hany
        obtain ⟨d, hd, hdc⟩ := hany
        right
        refine ⟨cs, hcs, ?_⟩
        rw [show d = cs from by simpa using hdc] at hd
        exact hd
  · intro meds h
    exact List.filter_sublist meds

/-- Counterexample to C5: `"no energy"` is a synonym of `"fatigue"`, yet
`extract("patient reports no energy")` does not contain `"fatigue"` — the
list-negation regex captures `"energy"`, which is a substring of the synonym
`"no energy"`, so the negation short-circuit skips the whole symptom; the
compound heuristic targeting `"fatigue"` does not fire either, since
`"unusual"` and `"tiredness"` are not description words. -/
theorem C5_synonym_coverage_counterexample :
    (∃ e, e ∈ symptom_synonyms ∧ e.1 = "fatigue" ∧ "no energy" ∈ e.2) ∧
    "fatigue" ∉ extract_symptoms (fun _ => []) (fun _ _ => 0)
      "patient reports no energy" := by
  refine ⟨by decide, ?_⟩
  intro h
  rcases (mem_extract_symptoms _ _ _ _).mp h with
    ⟨e, he, hfst, hadd⟩ | ⟨e, he, hsnd, hfires⟩
  · have hskip : skipNegated e.2 (get_negated_spans (fun _ => [])
        "patient reports no energy") = true := by
      unfold get_negated_spans
      exact skipNegated_append_right _ _ _
        ((by decide : ∀ e ∈ symptom_synonyms, e.1 = "fatigue" →
            skipNegated e.2
              (regexNegSpans ("patient reports no energy".toList)) = true)
          e he hfst)
    unfold extractAdds at hadd
    rw [hskip] at hadd
    simp at hadd
  · have hfalse := (by decide : ∀ e ∈ compound_symptoms, e.2 = "fatigue" →
        compoundFires (get_negated_spans (fun _ => []) "patient reports no energy")
          (splitWs (preprocess_text ("patient reports no energy".toList)))
          e = false) e he hsnd
    rw [hfires] at hfalse
    exact absurd hfalse (by decide)

/-- C5 amended: synonym coverage holds for every synonym `s` of a canonical
symptom `c` such that (i) `"patient reports " ++ s` gives the list-negation
regex nothing to capture that overlaps `c`'s synonyms (false for synonyms
containing `"no "`, such as `"no energy"`), (ii) `s` still occurs verbatim in
the preprocessed description (false for synonyms containing an apostrophe,
which preprocessing replaces by a space), and (iii) the dependency parse
reports no negation. -/
theorem C5_synonym_coverage_amended :
    ∀ (c : String) (syns : List String) (s : String)
      (depNeg : String → List String) (sem : String → String → ℚ),
      (c, syns) ∈ symptom_synonyms → s ∈ syns →
      skipNegated syns (regexNegSpans ("patient reports " ++ s).toList) = false →
      containsSeq s.toList
        (preprocess_text ("patient reports " ++ s).toList) = true →
      depNeg ("patient reports " ++ s) = [] →
      c ∈ extract_symptoms depNeg sem ("patient reports " ++ s) := by
  intro c syns s depNeg sem htab hs hskip hsub hdep
  apply mem_extract_of_match depNeg sem _ _ hdep
  refine ⟨(c, syns), htab, rfl, hskip, ?_⟩
  rw [List.any_eq_true]
  refine ⟨s, hs, ?_⟩
  unfold synMatches
  rw [hsub]
  rfl

/-- Witness for C5's amended theorem: the synonym `"high temperature"` of
`"fever"` is covered. -/
theorem C5_synonym_coverage_amended_witness :
    "fever" ∈ extract_symptoms (fun _ => []) (fun _ _ => 0)
      "patient reports high temperature" :=
  C5_synonym_coverage_amended "fever"
    ["fever", "high temperature", "pyrexia", "hot", "burning up", "temperature",
     "febrile", "temp", "feaver", "running a fever", "feverish"]
    "high temperature" (fun _ => []) (fun _ _ => 0)
    (by decide) (by decide) (by decide) (by decide) rfl

theorem nodup_foldl_condInsert {β : Type} (q : β → Bool) (g : β → String) :
    ∀ (l : List β) (init : List String), init.Nodup →
      (l.foldl (fun acc e => if q e then acc.insert (g e) else acc) init).Nodup := by
  intro l
  induction l with
  | nil => intro init h; exact h
  | cons e rest ih =>
    intro init h
    rw [List.foldl_cons]
    by_cases hq : q e = true
    · rw [if_pos hq]
      exact ih _ h.insert
    · rw [if_neg hq]
      exact ih _ h

/-- The extraction result is duplicate-free (it models a Python set). -/
theorem extract_symptoms_nodup (depNeg : String → List String)
    (sem : String → String → ℚ) (d : String) :
    (extract_symptoms depNeg sem d).Nodup := by
  have hdef : extract_symptoms depNeg sem d =
      List.foldl (compoundStep (get_negated_spans depNeg d)
          (splitWs (preprocess_text d.toList)))
        (List.foldl (extractStep (get_negated_spans depNeg d)
            (preprocess_text d.toList) (splitWs (preprocess_text d.toList))
            (sem d)) [] symptom_synonyms)
        compound_symptoms := rfl
  rw [hdef, extractStep_eq, compoundStep_eq]
  exact nodup_foldl_condInsert _ _ _ _
    (nodup_foldl_condInsert _ _ _ _ List.nodup_nil)

/-- A duplicate-free list of members of `l` is no longer than `l`. -/
theorem length_le_of_nodup_subset (xs l : List String) (hx : xs.Nodup)
    (hsub : ∀ x ∈ xs, x ∈ l) : xs.length ≤ l.length := by
  classical
  have hs : xs.toFinset ⊆ l.toFinset := by
    intro a ha
    rw [List.mem_toFinset] at ha ⊢
    exact hsub a ha
  calc xs.length = xs.toFinset.card := (List.toFinset_card_of_nodup hx).symm
    _ ≤ l.toFinset.card := Finset.card_le_card hs
    _ ≤ l.length := l.toFinset_card_le

/-- Counterexample to C6: the NLP extractor (`extract_symptoms` of
`test_model.py`) applies no cap — a description naming eleven distinct
symptoms yields an extracted set of more than ten symptoms. -/
theorem C6_extraction_cap_counterexample :
    (extract_symptoms (fun _ => []) (fun _ _ => 0)
      "fever cough fatigue headache rash chills nausea vomiting diarrhea dizziness itching").Nodup ∧
    10 < (extract_symptoms (fun _ => []) (fun _ _ => 0)
      "fever cough fatigue headache rash chills nausea vomiting diarrhea dizziness itching").length := by
  constructor
  · exact extract_symptoms_nodup _ _ _
  · have hsub : ∀ x ∈ (["fever", "cough", "fatigue", "headache", "rash",
        "chills", "nausea", "vomiting", "diarrhea", "dizziness", "itching"] :
          List String),
        x ∈ extract_symptoms (fun _ => []) (fun _ _ => 0)
          "fever cough fatigue headache rash chills nausea vomiting diarrhea dizziness itching" := by
      intro x hx
      simp only [List.mem_cons, List.not_mem_nil, or_false] at hx
      rcases hx with rfl | rfl | rfl | rfl | rfl | rfl | rfl | rfl | rfl | rfl | rfl <;>
        exact mem_extract_of_match _ _ _ _ rfl (by decide)
    have h11 := length_le_of_nodup_subset _ _ (by decide) hsub
    simp only [List.length_cons, List.length_nil] at h11
    omega

/-- C6 amended: the cap lives in the web extractor
(`extract_symptoms_from_description`), not in the NLP extractor: the web
extractor caps its detection list at `MAX_SYMPTOMS = 10`, keeping (some) ten
longest-named symptoms — a result of at most ten is returned unchanged, and
an over-long result is cut to exactly ten detected symptoms, each at least as
long as every dropped one. -/
theorem C6_extraction_cap_amended :
    (∀ d : String, extract_symptoms_from_description d =
      capSymptoms (webDetect (lowerList d.toList))) ∧
    (∀ l : List String, l.length ≤ MAX_SYMPTOMS → capSymptoms l = l) ∧
    (∀ l : List String, MAX_SYMPTOMS < l.length →
      (capSymptoms l).length = MAX_SYMPTOMS ∧
      (∀ x ∈ capSymptoms l, x ∈ l) ∧
      (∀ x ∈ capSymptoms l, ∀ y ∈ l, y ∉ capSymptoms l →
        y.length ≤ x.length)) := by
  refine ⟨fun d => rfl, ?_, ?_⟩
  · intro l h
    unfold capSymptoms
    rw [if_neg (by omega)]
  · intro l h
    have hlen : (List.insertionSort lenGeStr l).length = l.length :=
      List.length_insertionSort lenGeStr l
    refine ⟨?_, ?_, ?_⟩
    · unfold capSymptoms
      rw [if_pos h, List.length_take, hlen]
      have : MAX_SYMPTOMS ≤ l.length := Nat.le_of_lt h
      omega
    · intro x hx
      unfold capSymptoms at hx
      rw [if_pos h] at hx
      exact (List.mem_insertionSort lenGeStr).mp (List.mem_of_mem_take hx)
    · intro x hx y hy hyn
      unfold capSymptoms at hx hyn
      rw [if_pos h] at hx hyn
      have hys : y ∈ List.insertionSort lenGeStr l :=
        (List.mem_insertionSort lenGeStr).mpr hy
      have hsplit := List.take_append_drop MAX_SYMPTOMS
        (List.insertionSort lenGeStr l)
      have hyd : y ∈ (List.insertionSort lenGeStr l).drop MAX_SYMPTOMS := by
        rcases List.mem_append.mp (by rw [hsplit]; exact hys) with h1 | h1
        · exact absurd h1 hyn
        · exact h1
      have hpair : List.Pairwise lenGeStr (List.insertionSort lenGeStr l) :=
        List.sorted_insertionSort lenGeStr l
      rw [← hsplit] at hpair
      exact (List.pairwise_append.mp hpair).2.2 x hx y hyd

/-- Witness for C6's amended cap behaviour at concrete lists. -/
theorem C6_extraction_cap_amended_witness :
    capSymptoms ["fever"] = ["fever"] ∧
    (capSymptoms ["aa", "bb", "cc", "dd", "ee", "ff", "gg", "hh", "ii", "jj",
      "k"]).length = MAX_SYMPTOMS :=
  ⟨C6_extraction_cap_amended.2.1 ["fever"] (by decide),
   (C6_extraction_cap_amended.2.2
     ["aa", "bb", "cc", "dd", "ee", "ff", "gg", "hh", "ii", "jj", "k"]
     (by decide)).1⟩

end Tabitha
